import Mathlib

/-!
Verification of the SLANDS landing-page behaviour layer (`src/main.js`,
a bundle of `main.js` + `video.js`).

The development shallowly embeds the two stateful components of the page:

* `PortfolioCarousel` (source lines 103-267): slide index, indicator sync,
  auto-advance and progress timers, details-panel toggling, hover pause.
* the video visibility/playback controller (source lines 315-374):
  `getCurrentIndex`, the desktop IntersectionObserver callback, and the
  mobile tap-to-play overlay handlers.

Modelling conventions:

* JS numbers are embedded as `ℚ` (progress percentages) and `Nat`
  (indices, counts).  All arithmetic in the relevant code paths stays in
  small nonnegative ranges, where JS numbers behave exactly.
* `setInterval` handles are modelled by `Option Nat` fields mirroring the
  JS fields `autoAdvanceInterval` / `progressInterval`; the set of live
  (not yet cleared) intervals of each kind is carried explicitly as a
  list of handle ids, so that timer-leak questions are expressible.
  `clearInterval h` removes `h` from the live list (a no-op for a dead
  id, as in JS); `setInterval` allocates a fresh id from `nextId`.
* the 600 ms `setTimeout` scheduled by `goToSlide` is modelled by a
  pending-timeout counter `pendingPrev`; firing one executes the callback
  body `this.cards[this.currentIndex].classList.remove('prev')`, reading
  `currentIndex` at fire time exactly as the JS closure does.
* the document is modelled by the fields the code reads and writes: each
  card carries its `active` / `prev` classes, whether it has a
  `.pTextContainer` details panel and whether that panel has the
  `expanded` class; each indicator carries its `active` class and its
  `data-index` / `data-testid` attributes (the testid `indicator-i` is
  represented by the number `i`).
-/

namespace Slands

/-- One `.portfolioCard` element: its `active`/`prev` classes, whether it
contains a `.pTextContainer` details panel, and whether that panel has the
`expanded` class. -/
structure Card where
  active : Bool
  prev : Bool
  hasPanel : Bool
  expanded : Bool
  deriving DecidableEq

/-- One `.indicator` button: its `active` class, its `data-index` attribute
and its `data-testid` attribute (`data-testid="indicator-i"` is represented
by `some i`; absent attributes by `none`). -/
structure Indicator where
  active : Bool
  dataIndex : Option Nat
  testid : Option Nat
  deriving DecidableEq

/-- The markup the carousel constructor reads: the `.portfolioCard` list,
the `.carousel-indicators` container with its pre-existing indicator
buttons (`none` when the container is absent), and whether a
`.progress-fill` element exists.  Indicator buttons are taken to be
exactly the children of the container, as in the shipped page. -/
structure Markup where
  cards : List Card
  indicatorContainer : Option (List Indicator)
  hasProgressFill : Bool
  deriving DecidableEq

/-- The `PortfolioCarousel` instance state together with the host timer
state it owns.  `progress` is the local accumulator captured by the
closure of the most recent `startProgress` call; `progressWidth` is the
`style.width` percentage of the `.progress-fill` element (meaningful only
when `hasProgressFill`).  `liveAuto` / `liveProg` are the ids of the
currently live auto-advance / progress intervals. -/
structure Carousel where
  currentIndex : Nat
  cards : List Card
  indicators : List Indicator
  hasProgressFill : Bool
  progressWidth : ℚ
  progress : ℚ
  autoHandle : Option Nat
  progHandle : Option Nat
  liveAuto : List Nat
  liveProg : List Nat
  pendingPrev : Nat
  nextId : Nat
  isPaused : Bool
  deriving DecidableEq

/-- Replace the element at position `i` by `f` applied to it; out-of-range
indices leave the list unchanged. -/
def modifyAt {α : Type} : List α → Nat → (α → α) → List α
  | [], _, _ => []
  | a :: l, 0, f => f a :: l
  | a :: l, Nat.succ i, f => a :: modifyAt l i f

/-- `clearInterval` through a possibly-null handle: `if (handle)
clearInterval(handle)`.  Clearing a dead id is a no-op, as in JS. -/
def clearHandle (h : Option Nat) (live : List Nat) : List Nat :=
  match h with
  | none => live
  | some id => live.erase id

/-- `this.autoAdvanceDelay = 9000` (source line 138). -/
def autoAdvanceDelay : ℚ := 9000

/-- `const increment = 100 / (this.autoAdvanceDelay / 100)` (line 256). -/
def progressIncrement : ℚ := 100 / (autoAdvanceDelay / 100)

/-- One body of the progress interval callback acting on the closure
accumulator: `progress += increment; if (progress >= 100) progress = 100`
(lines 258-259). -/
def progressTickVal (p : ℚ) : ℚ :=
  let q := p + progressIncrement
  if 100 ≤ q then 100 else q

/-- Constructor backfill (lines 118-133): if the `.carousel-indicators`
container exists and has fewer children than there are cards, append
indicator buttons with `dataset.index = i` and `data-testid =
indicator-i` until the counts match; then capture all `.indicator`
elements. -/
def backfillIndicators (cards : List Card) (container : Option (List Indicator)) :
    List Indicator :=
  match container with
  | none => []
  | some inds =>
    if inds.length < cards.length then
      inds ++ (List.range (cards.length - inds.length)).map (fun k =>
        { active := false, dataIndex := some (inds.length + k),
          testid := some (inds.length + k) })
    else inds

/-- `resetProgress` (lines 263-266): clear the progress interval through
its handle (without nulling the handle) and set the fill width to `0%`
when the element exists. -/
def resetProgress (s : Carousel) : Carousel :=
  { s with liveProg := clearHandle s.progHandle s.liveProg,
           progressWidth := if s.hasProgressFill then 0 else s.progressWidth }

/-- `startProgress` (lines 254-262): a fresh closure accumulator
`let progress = 0` and a fresh progress interval whose id is stored in
`this.progressInterval`. -/
def startProgress (s : Carousel) : Carousel :=
  { s with progress := 0,
           progHandle := some s.nextId,
           liveProg := s.liveProg ++ [s.nextId],
           nextId := s.nextId + 1 }

/-- `startAutoAdvance` (lines 219-225): `resetProgress`, `startProgress`,
then create the auto-advance interval and store its id. -/
def startAutoAdvance (s : Carousel) : Carousel :=
  let s1 := startProgress (resetProgress s)
  { s1 with autoHandle := some s1.nextId,
            liveAuto := s1.liveAuto ++ [s1.nextId],
            nextId := s1.nextId + 1 }

/-- `pauseAutoAdvance` (lines 226-236): set `isPaused`, clear both
intervals through their handles and null the handles. -/
def pauseAutoAdvance (s : Carousel) : Carousel :=
  { s with isPaused := true,
           liveAuto := clearHandle s.autoHandle s.liveAuto,
           autoHandle := none,
           liveProg := clearHandle s.progHandle s.liveProg,
           progHandle := none }

/-- `tempPauseAutoAdvance` (lines 237-246): clear both intervals and null
the handles without touching `isPaused`. -/
def tempPauseAutoAdvance (s : Carousel) : Carousel :=
  { s with liveAuto := clearHandle s.autoHandle s.liveAuto,
           autoHandle := none,
           liveProg := clearHandle s.progHandle s.liveProg,
           progHandle := none }

/-- `resumeAutoAdvance` (lines 247-253): restart the timers only when not
`isPaused`, then unconditionally clear `isPaused`. -/
def resumeAutoAdvance (s : Carousel) : Carousel :=
  let s1 := if !s.isPaused then startAutoAdvance (pauseAutoAdvance s) else s
  { s1 with isPaused := false }

/-- The per-card collapse in `goToSlide` (lines 196-198):
`card.querySelector('.pTextContainer')?.classList.remove('expanded')` —
a no-op on cards without a panel. -/
def collapseAll (cards : List Card) : List Card :=
  cards.map (fun c => if c.hasPanel then { c with expanded := false } else c)

/-- `goToSlide(index)` (lines 193-210).  The guard is
`if (!this.cards[this.currentIndex]) return`.  The scheduled 600 ms
timeout is recorded in `pendingPrev`; its callback (`firePrevTimeout`)
reads `currentIndex` at fire time, as the JS closure does.  Note the
order: the timeout is scheduled, `currentIndex` is reassigned, the new
card and indicator are marked active, then `resetProgress` and
`resumeAutoAdvance` run. -/
def goToSlide (i : Nat) (s : Carousel) : Carousel :=
  if s.currentIndex < s.cards.length then
    let cards1 := modifyAt (collapseAll s.cards) s.currentIndex
      (fun c => { c with active := false, prev := true })
    let s1 := { s with cards := cards1,
                       pendingPrev := s.pendingPrev + 1,
                       currentIndex := i }
    let s2 := { s1 with
      cards := modifyAt s1.cards i (fun c => { c with active := true }),
      indicators := modifyAt (s1.indicators.map (fun d => { d with active := false }))
        i (fun d => { d with active := true }) }
    resumeAutoAdvance (resetProgress s2)
  else s

/-- The body of the 600 ms timeout scheduled by `goToSlide` (lines
201-203): `this.cards[this.currentIndex].classList.remove('prev')`,
with `currentIndex` read when the timeout fires. -/
def firePrevTimeout (s : Carousel) : Carousel :=
  { s with pendingPrev := s.pendingPrev - 1,
           cards := modifyAt s.cards s.currentIndex (fun c => { c with prev := false }) }

/-- `goToNext` (lines 211-214). -/
def goToNext (s : Carousel) : Carousel :=
  goToSlide ((s.currentIndex + 1) % s.cards.length) s

/-- `goToPrevious` (lines 215-218): the JS computes
`(this.currentIndex - 1 + this.cards.length) % this.cards.length` over
JS numbers; with `currentIndex ≥ 0` and at least one card the dividend
is nonnegative, where the JS remainder agrees with `Int.emod`. -/
def goToPrevious (s : Carousel) : Carousel :=
  goToSlide ((((s.currentIndex : Int) - 1 + s.cards.length) % (s.cards.length : Int)).toNat) s

/-- The details toggle closure for card `i` (lines 159-177): cards
without a `.pTextContainer` get no listener; otherwise flip `expanded`
and pause or resume. -/
def toggleDetails (i : Nat) (s : Carousel) : Carousel :=
  match s.cards.get? i with
  | none => s
  | some c =>
    if c.hasPanel then
      if c.expanded then
        resumeAutoAdvance
          { s with cards := modifyAt s.cards i (fun d => { d with expanded := false }) }
      else
        pauseAutoAdvance
          { s with cards := modifyAt s.cards i (fun d => { d with expanded := true }) }
    else s

/-- The `mouseenter` handler of `initHoverPause` (lines 182-186):
`tempPauseAutoAdvance` unless the current card's panel is expanded
(`querySelector(...)?.classList.contains('expanded')` is falsy for a
card without a panel). -/
def hoverEnter (s : Carousel) : Carousel :=
  match s.cards.get? s.currentIndex with
  | none => s
  | some c => if c.hasPanel && c.expanded then s else tempPauseAutoAdvance s

/-- The `mouseleave` handler of `initHoverPause` (lines 187-191). -/
def hoverLeave (s : Carousel) : Carousel :=
  match s.cards.get? s.currentIndex with
  | none => s
  | some c => if c.hasPanel && c.expanded then s else resumeAutoAdvance s

/-- The progress interval callback acting on the carousel state (lines
257-261): advance the closure accumulator with clamp and reflect it on
the `.progress-fill` width when the element exists. -/
def progressTick (s : Carousel) : Carousel :=
  { s with progress := progressTickVal s.progress,
           progressWidth := if s.hasProgressFill then progressTickVal s.progress
                            else s.progressWidth }

/-- The constructor plus `init()` (lines 104-149).  Only
`startAutoAdvance` mutates state at startup; the rest of `init` attaches
listeners.  With zero cards `init` is skipped entirely.  The initial
`progressWidth` is taken as `0` (the stylesheet initial).  Interval ids
start at 1, as host interval ids are nonzero. -/
def construct (m : Markup) : Carousel :=
  let s0 : Carousel :=
    { currentIndex := 0,
      cards := m.cards,
      indicators := backfillIndicators m.cards m.indicatorContainer,
      hasProgressFill := m.hasProgressFill,
      progressWidth := 0,
      progress := 0,
      autoHandle := none,
      progHandle := none,
      liveAuto := [],
      liveProg := [],
      pendingPrev := 0,
      nextId := 1,
      isPaused := false }
  if m.cards.isEmpty then s0 else startAutoAdvance s0

/-- The event alphabet of the carousel: every listener attached by
`init` plus the two timer callbacks and the scheduled `prev` timeout.
Indicator clicks are restricted to indices with a card: a click on an
indicator beyond the card count aborts inside `goToSlide` with a
`TypeError` on `classList` of `undefined` before any timer is touched,
so it cannot create or leak timers. -/
inductive Step : Carousel → Carousel → Prop
  | indicatorClick {s : Carousel} (i : Nat) (h : i < s.cards.length) :
      Step s (goToSlide i s)
  | nextClick {s : Carousel} : Step s (goToNext s)
  | prevClick {s : Carousel} : Step s (goToPrevious s)
  | toggle {s : Carousel} (i : Nat) : Step s (toggleDetails i s)
  | hoverIn {s : Carousel} : Step s (hoverEnter s)
  | hoverOut {s : Carousel} : Step s (hoverLeave s)
  | resume {s : Carousel} : Step s (resumeAutoAdvance s)
  | autoTick {s : Carousel} (h : s.liveAuto ≠ []) : Step s (goToNext s)
  | progTickStep {s : Carousel} (h : s.liveProg ≠ []) : Step s (progressTick s)
  | prevTimeout {s : Carousel} (h : 0 < s.pendingPrev) : Step s (firePrevTimeout s)

/-- States reachable from initialization on a given markup by any
sequence of carousel operations. -/
inductive Reachable (m : Markup) : Carousel → Prop
  | init : Reachable m (construct m)
  | step {s t : Carousel} : Reachable m s → Step s t → Reachable m t

/-- A handle field is in sync with the live intervals of its kind: either
no interval of the kind is live, or exactly the one the handle points to
is. -/
def HandleInv (h : Option Nat) (live : List Nat) : Prop :=
  live = [] ∨ ∃ id, h = some id ∧ live = [id]

/-- The single-timer invariant together with the facts needed to push it
through every operation: each live-interval list is either empty or the
singleton of the interval its handle points to, and while `isPaused`
holds both handles are null and both interval kinds are dead. -/
def TimerInv (s : Carousel) : Prop :=
  HandleInv s.autoHandle s.liveAuto ∧
  HandleInv s.progHandle s.liveProg ∧
  (s.isPaused = true →
    s.autoHandle = none ∧ s.progHandle = none ∧ s.liveAuto = [] ∧ s.liveProg = [])

/-- The closure accumulator of `startProgress` after `k` firings of the
progress interval. -/
def progressAfter (k : Nat) : ℚ :=
  progressTickVal^[k] 0

/-- The `active` classes of a card list, in document order. -/
def activeFlags (l : List Card) : List Bool :=
  l.map (fun c => c.active)

/-- The `active` classes of an indicator list, in document order. -/
def indActiveFlags (l : List Indicator) : List Bool :=
  l.map (fun d => d.active)

/-! ### Video visibility/playback controller (`video.js`, lines 315-374) -/

/-- A `.portfolioVid` media element: whether it is playing and its
`currentTime`. -/
structure MediaEl where
  playing : Bool
  currentTime : ℚ
  deriving DecidableEq

/-- The mobile per-card playback state: the media element and whether the
`.video-overlay` is shown (`style.display = ''`, as opposed to
`'none'`). -/
structure MobileSlide where
  video : MediaEl
  overlayShown : Bool
  deriving DecidableEq

/-- `getCurrentIndex` (lines 321-324): the index of the first
`.portfolioCard.active` in document order, and `0` when none is
active. -/
def getCurrentIndex (cards : List Card) : Nat :=
  match cards.findIdx? (fun c => c.active) with
  | some i => i
  | none => 0

/-- The desktop IntersectionObserver callback body for the card at
`index` (lines 361-371): play when intersecting (threshold 0.6) and
current, otherwise pause and rewind to the start. -/
def desktopOnVisibility (cards : List Card) (index : Nat) (isIntersecting : Bool)
    (v : MediaEl) : MediaEl :=
  if isIntersecting && index == getCurrentIndex cards then
    { v with playing := true }
  else
    { playing := false, currentTime := 0 }

/-- The mobile overlay click handler (lines 341-344): hide the overlay
and `video.play()`, unconditionally. -/
def mobileTap (v : MobileSlide) : MobileSlide :=
  { video := { v.video with playing := true }, overlayShown := false }

/-- The mobile IntersectionObserver callback body for the card at
`index` (lines 345-355): pause, rewind and restore the overlay when not
intersecting at the 0.6 threshold or not the active card; otherwise do
nothing (visibility alone never starts playback on mobile). -/
def mobileOnVisibility (cards : List Card) (index : Nat) (isIntersecting : Bool)
    (v : MobileSlide) : MobileSlide :=
  if !isIntersecting || index != getCurrentIndex cards then
    { video := { playing := false, currentTime := 0 }, overlayShown := true }
  else v

/-! ### Concrete markups used by counterexamples and witnesses -/

/-- A plain card with a details panel, no classes set. -/
def plainCard : Card :=
  { active := false, prev := false, hasPanel := true, expanded := false }

/-- A card carrying the `active` class. -/
def activeCard : Card :=
  { plainCard with active := true }

/-- A plain indicator from markup, with no data attributes. -/
def plainInd : Indicator :=
  { active := false, dataIndex := none, testid := none }

/-- An indicator carrying the `active` class. -/
def activeInd : Indicator :=
  { plainInd with active := true }

/-- Two cards (card 0 active), two indicators, progress bar present — the
shape of the shipped page reduced to two slides. -/
def markupTwo : Markup :=
  { cards := [activeCard, plainCard],
    indicatorContainer := some [activeInd, plainInd],
    hasProgressFill := true }

/-- Three cards (card 0 active), three indicators, progress bar present. -/
def markupThree : Markup :=
  { cards := [activeCard, plainCard, plainCard],
    indicatorContainer := some [activeInd, plainInd, plainInd],
    hasProgressFill := true }

/-- One card, one indicator, neither marked active in the markup. -/
def markupNoActive : Markup :=
  { cards := [plainCard],
    indicatorContainer := some [plainInd],
    hasProgressFill := false }

/-- One card and no `.carousel-indicators` container in the markup. -/
def markupNoContainer : Markup :=
  { cards := [plainCard],
    indicatorContainer := none,
    hasProgressFill := false }

/-- Two cards but only one pre-existing indicator in the container. -/
def markupShortIndicators : Markup :=
  { cards := [activeCard, plainCard],
    indicatorContainer := some [activeInd],
    hasProgressFill := true }

/-- Two cards for the video controller, card 0 active. -/
def videoCards : List Card :=
  [activeCard, plainCard]

/-! ## Lemmas about the embedding -/

@[simp]
theorem modifyAt_length {α : Type} (l : List α) (i : Nat) (f : α → α) :
    (modifyAt l i f).length = l.length := by
  induction l generalizing i with
  | nil => rfl
  | cons a l ih =>
    cases i with
    | zero => rfl
    | succ j => simp [modifyAt, ih]

theorem get?_modifyAt {α : Type} (l : List α) (i j : Nat) (f : α → α) :
    (modifyAt l i f).get? j = if i = j then (l.get? j).map f else l.get? j := by
  induction l generalizing i j with
  | nil => simp [modifyAt]
  | cons a l ih =>
    cases i with
    | zero =>
      cases j with
      | zero => simp [modifyAt]
      | succ j2 => simp [modifyAt]
    | succ i2 =>
      cases j with
      | zero => simp [modifyAt]
      | succ j2 => simpa [modifyAt] using ih i2 j2

theorem forall_mem_modifyAt {α : Type} {P : α → Prop} {l : List α} {i : Nat}
    {f : α → α} (hf : ∀ a, P a → P (f a)) (hl : ∀ a ∈ l, P a) :
    ∀ a ∈ modifyAt l i f, P a := by
  induction l generalizing i with
  | nil => simp [modifyAt]
  | cons a l ih =>
    cases i with
    | zero =>
      intro b hb
      rcases List.mem_cons.mp hb with rfl | hb
      · exact hf a (hl a (List.mem_cons_self a l))
      · exact hl b (List.mem_cons_of_mem a hb)
    | succ j =>
      intro b hb
      rcases List.mem_cons.mp hb with rfl | hb
      · exact hl b (List.mem_cons_self b l)
      · exact ih (fun c hc => hl c (List.mem_cons_of_mem a hc)) b hb

theorem clearHandle_eq_nil {h : Option Nat} {live : List Nat}
    (hi : HandleInv h live) : clearHandle h live = [] := by
  rcases hi with h0 | ⟨id, hid, h0⟩
  · cases h <;> simp [clearHandle, h0]
  · simp [clearHandle, hid, h0]

theorem pauseAutoAdvance_eq (s : Carousel)
    (hA : HandleInv s.autoHandle s.liveAuto) (hP : HandleInv s.progHandle s.liveProg) :
    pauseAutoAdvance s =
      { s with isPaused := true, autoHandle := none, progHandle := none,
               liveAuto := [], liveProg := [] } := by
  simp [pauseAutoAdvance, clearHandle_eq_nil hA, clearHandle_eq_nil hP]

theorem tempPauseAutoAdvance_eq (s : Carousel)
    (hA : HandleInv s.autoHandle s.liveAuto) (hP : HandleInv s.progHandle s.liveProg) :
    tempPauseAutoAdvance s =
      { s with autoHandle := none, progHandle := none,
               liveAuto := [], liveProg := [] } := by
  simp [tempPauseAutoAdvance, clearHandle_eq_nil hA, clearHandle_eq_nil hP]

theorem startAutoAdvance_eq (s : Carousel) (hP : HandleInv s.progHandle s.liveProg) :
    startAutoAdvance s =
      { s with progressWidth := if s.hasProgressFill then 0 else s.progressWidth,
               progress := 0,
               progHandle := some s.nextId,
               liveProg := [s.nextId],
               autoHandle := some (s.nextId + 1),
               liveAuto := s.liveAuto ++ [s.nextId + 1],
               nextId := s.nextId + 2 } := by
  simp [startAutoAdvance, startProgress, resetProgress, clearHandle_eq_nil hP]

theorem resumeAutoAdvance_eq_paused (s : Carousel) (h : s.isPaused = true) :
    resumeAutoAdvance s = { s with isPaused := false } := by
  simp [resumeAutoAdvance, h]

theorem resumeAutoAdvance_eq_notPaused (s : Carousel) (h : s.isPaused = false)
    (hA : HandleInv s.autoHandle s.liveAuto) (hP : HandleInv s.progHandle s.liveProg) :
    resumeAutoAdvance s =
      { s with isPaused := false,
               progressWidth := if s.hasProgressFill then 0 else s.progressWidth,
               progress := 0,
               progHandle := some s.nextId,
               liveProg := [s.nextId],
               autoHandle := some (s.nextId + 1),
               liveAuto := [s.nextId + 1],
               nextId := s.nextId + 2 } := by
  have h1 := pauseAutoAdvance_eq s hA hP
  have h2 : HandleInv (pauseAutoAdvance s).progHandle (pauseAutoAdvance s).liveProg := by
    rw [h1]; exact Or.inl rfl
  have h3 := startAutoAdvance_eq (pauseAutoAdvance s) h2
  simp only [resumeAutoAdvance, h, Bool.not_false, if_true]
  rw [h3, h1]
  simp

/-! ### Preservation of the timer invariant by every operation -/

theorem timerInv_resetProgress (s : Carousel) (h : TimerInv s) :
    TimerInv (resetProgress s) := by
  obtain ⟨hA, hP, hpause⟩ := h
  refine ⟨hA, Or.inl (clearHandle_eq_nil hP), fun hp => ?_⟩
  obtain ⟨h1, h2, h3, _⟩ := hpause hp
  exact ⟨h1, h2, h3, clearHandle_eq_nil hP⟩

theorem timerInv_pause (s : Carousel) (h : TimerInv s) :
    TimerInv (pauseAutoAdvance s) := by
  rw [pauseAutoAdvance_eq s h.1 h.2.1]
  exact ⟨Or.inl rfl, Or.inl rfl, fun _ => ⟨rfl, rfl, rfl, rfl⟩⟩

theorem timerInv_temp (s : Carousel) (h : TimerInv s) :
    TimerInv (tempPauseAutoAdvance s) := by
  rw [tempPauseAutoAdvance_eq s h.1 h.2.1]
  exact ⟨Or.inl rfl, Or.inl rfl, fun _ => ⟨rfl, rfl, rfl, rfl⟩⟩

theorem timerInv_resume (s : Carousel) (h : TimerInv s) :
    TimerInv (resumeAutoAdvance s) := by
  cases hp : s.isPaused
  · rw [resumeAutoAdvance_eq_notPaused s hp h.1 h.2.1]
    exact ⟨Or.inr ⟨s.nextId + 1, rfl, rfl⟩, Or.inr ⟨s.nextId, rfl, rfl⟩, by simp⟩
  · rw [resumeAutoAdvance_eq_paused s hp]
    exact ⟨h.1, h.2.1, by simp⟩

theorem timerInv_construct (m : Markup) : TimerInv (construct m) := by
  by_cases hc : m.cards.isEmpty
  · simp only [construct, hc, if_true]
    exact ⟨Or.inl rfl, Or.inl rfl, by simp⟩
  · simp only [construct, hc, if_false]
    rw [startAutoAdvance_eq _ (Or.inl rfl)]
    exact ⟨Or.inr ⟨2, rfl, rfl⟩, Or.inr ⟨1, rfl, rfl⟩, by simp⟩

theorem timerInv_goToSlide (i : Nat) (s : Carousel) (h : TimerInv s) :
    TimerInv (goToSlide i s) := by
  unfold goToSlide
  by_cases hg : s.currentIndex < s.cards.length
  · simp only [hg, if_true]
    exact timerInv_resume _ (timerInv_resetProgress _ h)
  · simp only [hg, if_false]
    exact h

theorem timerInv_goToNext (s : Carousel) (h : TimerInv s) :
    TimerInv (goToNext s) :=
  timerInv_goToSlide _ s h

theorem timerInv_goToPrevious (s : Carousel) (h : TimerInv s) :
    TimerInv (goToPrevious s) :=
  timerInv_goToSlide _ s h

theorem timerInv_toggle (i : Nat) (s : Carousel) (h : TimerInv s) :
    TimerInv (toggleDetails i s) := by
  unfold toggleDetails
  cases hc : s.cards.get? i with
  | none => exact h
  | some c =>
    by_cases h1 : c.hasPanel
    · by_cases h2 : c.expanded
      · simp only [h1, h2, if_true]
        exact timerInv_resume _ h
      · simp only [h1, h2, if_true, if_false]
        exact timerInv_pause _ h
    · simp only [h1, if_false]
      exact h

theorem timerInv_hoverEnter (s : Carousel) (h : TimerInv s) :
    TimerInv (hoverEnter s) := by
  unfold hoverEnter
  cases hc : s.cards.get? s.currentIndex with
  | none => exact h
  | some c =>
    by_cases h1 : c.hasPanel && c.expanded
    · simp only [h1, if_true]
      exact h
    · simp only [h1, if_false]
      exact timerInv_temp _ h

theorem timerInv_hoverLeave (s : Carousel) (h : TimerInv s) :
    TimerInv (hoverLeave s) := by
  unfold hoverLeave
  cases hc : s.cards.get? s.currentIndex with
  | none => exact h
  | some c =>
    by_cases h1 : c.hasPanel && c.expanded
    · simp only [h1, if_true]
      exact h
    · simp only [h1, if_false]
      exact timerInv_resume _ h

theorem timerInv_progressTick (s : Carousel) (h : TimerInv s) :
    TimerInv (progressTick s) :=
  h

theorem timerInv_fireTimeout (s : Carousel) (h : TimerInv s) :
    TimerInv (firePrevTimeout s) :=
  h

/-- Every reachable carousel state satisfies the timer invariant. -/
theorem reachable_timerInv {m : Markup} {s : Carousel} (h : Reachable m s) :
    TimerInv s := by
  induction h with
  | init => exact timerInv_construct m
  | step hr hs ih =>
    cases hs with
    | indicatorClick i hi => exact timerInv_goToSlide i _ ih
    | nextClick => exact timerInv_goToNext _ ih
    | prevClick => exact timerInv_goToPrevious _ ih
    | toggle i => exact timerInv_toggle i _ ih
    | hoverIn => exact timerInv_hoverEnter _ ih
    | hoverOut => exact timerInv_hoverLeave _ ih
    | resume => exact timerInv_resume _ ih
    | autoTick hl => exact timerInv_goToNext _ ih
    | progTickStep hl => exact timerInv_progressTick _ ih
    | prevTimeout hp => exact timerInv_fireTimeout _ ih

/-! ### Shape lemmas for `construct` and `goToSlide` -/

theorem construct_cards (m : Markup) : (construct m).cards = m.cards := by
  by_cases hc : m.cards.isEmpty
  · simp [construct, hc]
  · simp [construct, hc, startAutoAdvance, startProgress, resetProgress]

theorem construct_indicators (m : Markup) :
    (construct m).indicators = backfillIndicators m.cards m.indicatorContainer := by
  by_cases hc : m.cards.isEmpty
  · simp [construct, hc]
  · simp [construct, hc, startAutoAdvance, startProgress, resetProgress]

theorem construct_currentIndex (m : Markup) : (construct m).currentIndex = 0 := by
  by_cases hc : m.cards.isEmpty
  · simp [construct, hc]
  · simp [construct, hc, startAutoAdvance, startProgress, resetProgress]

/-- `resumeAutoAdvance (resetProgress t)` while paused with a null
progress handle: only the progress width and the `isPaused` flag
change. -/
theorem resumeReset_paused_eq (t : Carousel) (hp : t.isPaused = true)
    (hpn : t.progHandle = none) :
    resumeAutoAdvance (resetProgress t) =
      { t with progressWidth := if t.hasProgressFill then 0 else t.progressWidth,
               isPaused := false } := by
  have hp2 : (resetProgress t).isPaused = true := hp
  rw [resumeAutoAdvance_eq_paused _ hp2]
  simp [resetProgress, hpn, clearHandle]

/-- `goToSlide` while a details panel holds the carousel paused: the
`resumeAutoAdvance` at the end takes its `isPaused` branch, so only the
document state, `pendingPrev`, the progress width and the `isPaused`
flag change — no timer is created. -/
theorem goToSlide_paused_eq (i : Nat) (s : Carousel)
    (hg : s.currentIndex < s.cards.length) (hp : s.isPaused = true)
    (hpn : s.progHandle = none) :
    goToSlide i s =
      { s with
        cards := modifyAt (modifyAt (collapseAll s.cards) s.currentIndex
            (fun c => { c with active := false, prev := true })) i
            (fun c => { c with active := true }),
        indicators := modifyAt (s.indicators.map (fun d => { d with active := false })) i
            (fun d => { d with active := true }),
        currentIndex := i,
        pendingPrev := s.pendingPrev + 1,
        progressWidth := if s.hasProgressFill then 0 else s.progressWidth,
        isPaused := false } := by
  unfold goToSlide
  simp only [hg, if_true]
  refine (resumeReset_paused_eq _ ?_ ?_).trans ?_
  · exact hp
  · exact hpn
  · simp

/-- After the collapse pass and the two class updates of `goToSlide`, no
card has an expanded details panel. -/
theorem noOpenPanels_after_goToSlide (cards : List Card) (a i : Nat) :
    ∀ c ∈ modifyAt (modifyAt (collapseAll cards) a
        (fun c => { c with active := false, prev := true })) i
        (fun c => { c with active := true }),
      (c.hasPanel && c.expanded) = false := by
  refine forall_mem_modifyAt (fun c hc => ?_) (forall_mem_modifyAt (fun c hc => ?_) ?_)
  · exact hc
  · exact hc
  · intro c hc
    obtain ⟨d, _, rfl⟩ := List.mem_map.mp hc
    by_cases hd : d.hasPanel <;> simp [hd]

/-! ## Claim theorems -/

/-- C9: in every state reachable from initialization by any sequence of
carousel operations (indicator/next/previous clicks, details toggles,
hover pause and resume, `resumeAutoAdvance`, auto-advance and progress
timer ticks, the scheduled `prev` timeout), at most one auto-advance
interval and at most one progress interval are live. -/
theorem C9_single_timer (m : Markup) (s : Carousel) (h : Reachable m s) :
    s.liveAuto.length ≤ 1 ∧ s.liveProg.length ≤ 1 := by
  obtain ⟨hA, hP, _⟩ := reachable_timerInv h
  constructor
  · rcases hA with h0 | ⟨id, _, h0⟩ <;> simp [h0]
  · rcases hP with h0 | ⟨id, _, h0⟩ <;> simp [h0]

/-- Witness for C9 at a concrete reachable state. -/
theorem C9_single_timer_witness :
    (construct markupTwo).liveAuto.length ≤ 1 ∧
    (construct markupTwo).liveProg.length ≤ 1 :=
  C9_single_timer markupTwo (construct markupTwo) Reachable.init

/-- C4 (code bug): two slides, slide 0 current; `goToSlide 1` marks the
outgoing slide 0 as `prev` and schedules the 600 ms timeout, but when the
timeout fires it reads `this.currentIndex` — already `1` — and removes
`prev` from the incoming slide 1, so the outgoing slide 0 keeps the
`prev` marker. -/
theorem C4_stale_prev_marker :
    ((goToSlide 1 (construct markupTwo)).cards.get? 0).map (fun c => c.prev) = some true ∧
    (goToSlide 1 (construct markupTwo)).pendingPrev = 1 ∧
    (goToSlide 1 (construct markupTwo)).currentIndex = 1 ∧
    ((firePrevTimeout (goToSlide 1 (construct markupTwo))).cards.get? 0).map
      (fun c => c.prev) = some true ∧
    ((firePrevTimeout (goToSlide 1 (construct markupTwo))).cards.get? 1).map
      (fun c => c.prev) = some false ∧
    (firePrevTimeout (goToSlide 1 (construct markupTwo))).pendingPrev = 0 := by
  decide

/-- C1 (code bug): on mobile, with card 0 active (`getCurrentIndex = 0`),
tapping the tap-to-play overlay of card 1 hides the overlay and starts
playback of card 1's media — the handler consults neither the active
index nor the intersection state, so media of a slide that is not the
current slide plays. -/
theorem C1_mobile_tap_plays_inactive :
    getCurrentIndex videoCards = 0 ∧
    (mobileTap { video := { playing := false, currentTime := 0 },
                 overlayShown := true }).video.playing = true ∧
    (mobileTap { video := { playing := false, currentTime := 0 },
                 overlayShown := true }).overlayShown = false := by
  refine ⟨by decide, rfl, rfl⟩

/-- C10: when a visibility event fires and no card carries the `active`
class, `getCurrentIndex` falls back to `0`, and the desktop visibility
callback for the card at ordinal 0 therefore plays its media when its
container intersects. -/
theorem C10_no_active_defaults_to_zero (cards : List Card) (v : MediaEl)
    (h : ∀ c ∈ cards, c.active = false) :
    getCurrentIndex cards = 0 ∧
    (desktopOnVisibility cards 0 true v).playing = true := by
  have h0 : cards.findIdx? (fun c => c.active) = none :=
    List.findIdx?_eq_none_iff.mpr h
  refine ⟨by simp [getCurrentIndex, h0], ?_⟩
  simp [desktopOnVisibility, getCurrentIndex, h0]

/-- Witness for C10 on a concrete all-inactive card list. -/
theorem C10_no_active_defaults_to_zero_witness :
    getCurrentIndex [plainCard, plainCard] = 0 ∧
    (desktopOnVisibility [plainCard, plainCard] 0 true
      { playing := false, currentTime := 0 }).playing = true :=
  C10_no_active_defaults_to_zero [plainCard, plainCard]
    { playing := false, currentTime := 0 } (by decide)

/-- C2 counterexample: open the details panel of slide 0 (this pauses
with `isPaused = true` and clears the timers), then call `goToSlide 1`.
The claim says the timers are restarted; in fact `resumeAutoAdvance`
skips the restart because `isPaused` is still `true` when it runs, so
afterwards no auto-advance and no progress interval is live and both
handles are null — auto-advance does not resume. -/
theorem C2_counterexample :
    (toggleDetails 0 (construct markupTwo)).isPaused = true ∧
    ((toggleDetails 0 (construct markupTwo)).cards.get? 0).map
      (fun c => c.expanded) = some true ∧
    (goToSlide 1 (toggleDetails 0 (construct markupTwo))).liveAuto = [] ∧
    (goToSlide 1 (toggleDetails 0 (construct markupTwo))).liveProg = [] ∧
    (goToSlide 1 (toggleDetails 0 (construct markupTwo))).autoHandle = none ∧
    (goToSlide 1 (toggleDetails 0 (construct markupTwo))).isPaused = false := by
  decide

/-- C2 (amended): while a details panel holds the carousel paused
(`isPaused = true`), a manual `goToSlide` closes every open panel and
clears `isPaused`, but does not restart the auto-advance or progress
timers: no interval is created (`nextId` is unchanged) and none is live
afterwards; and while paused no progress interval is live, so the
progress fill cannot advance. -/
theorem C2_paused_goToSlide (m : Markup) (s : Carousel) (i : Nat)
    (h : Reachable m s) (hp : s.isPaused = true)
    (hg : s.currentIndex < s.cards.length) :
    (goToSlide i s).cards.countP (fun c => c.hasPanel && c.expanded) = 0 ∧
    (goToSlide i s).isPaused = false ∧
    (goToSlide i s).nextId = s.nextId ∧
    (goToSlide i s).liveAuto = [] ∧
    (goToSlide i s).liveProg = [] ∧
    s.liveProg = [] := by
  obtain ⟨hA, hP, hpause⟩ := reachable_timerInv h
  obtain ⟨han, hpn, hla, hlp⟩ := hpause hp
  rw [goToSlide_paused_eq i s hg hp hpn]
  refine ⟨List.countP_eq_zero.mpr (fun c hc => ?_), rfl, rfl, hla, hlp, hlp⟩
  have hcf := noOpenPanels_after_goToSlide s.cards s.currentIndex i c hc
  simp [hcf]

/-- Witness for C2 (amended) at the concrete paused state of the
counterexample. -/
theorem C2_paused_goToSlide_witness :
    (goToSlide 1 (toggleDetails 0 (construct markupTwo))).cards.countP
      (fun c => c.hasPanel && c.expanded) = 0 ∧
    (goToSlide 1 (toggleDetails 0 (construct markupTwo))).isPaused = false ∧
    (goToSlide 1 (toggleDetails 0 (construct markupTwo))).nextId =
      (toggleDetails 0 (construct markupTwo)).nextId ∧
    (goToSlide 1 (toggleDetails 0 (construct markupTwo))).liveAuto = [] ∧
    (goToSlide 1 (toggleDetails 0 (construct markupTwo))).liveProg = [] ∧
    (toggleDetails 0 (construct markupTwo)).liveProg = [] :=
  C2_paused_goToSlide markupTwo (toggleDetails 0 (construct markupTwo)) 1
    (Reachable.step Reachable.init (Step.toggle 0)) (by decide) (by decide)

/-- C3 counterexample: a markup with one slide and one indicator, none
marked active.  Initialization starts the timers but writes no `active`
marker, so afterwards no slide and no indicator is active — refuting
"for every N ≥ 1, after initialization exactly one slide and one
indicator are marked active at ordinal 0". -/
theorem C3_counterexample :
    1 ≤ (construct markupNoActive).cards.length ∧
    activeFlags (construct markupNoActive).cards = [false] ∧
    indActiveFlags (construct markupNoActive).indicators = [false] := by
  decide

/-- C3 (amended): initialization never writes `active` markers — the
slides are exactly the markup's and synthesized indicators are created
inactive — so when the markup marks exactly slide 0 and indicator 0
active (as the shipped page does), after initialization exactly one
slide and one indicator are active, both at ordinal 0. -/
theorem C3_init_preserves_active (m : Markup) (inds : List Indicator)
    (hI : m.indicatorContainer = some inds)
    (hc1 : (activeFlags m.cards).head? = some true)
    (hc2 : (activeFlags m.cards).count true = 1)
    (hi1 : (indActiveFlags inds).head? = some true)
    (hi2 : (indActiveFlags inds).count true = 1) :
    (activeFlags (construct m).cards).head? = some true ∧
    (activeFlags (construct m).cards).count true = 1 ∧
    (indActiveFlags (construct m).indicators).head? = some true ∧
    (indActiveFlags (construct m).indicators).count true = 1 := by
  rw [construct_cards, construct_indicators, hI]
  by_cases hlen : inds.length < m.cards.length
  · have hback : backfillIndicators m.cards (some inds) =
        inds ++ (List.range (m.cards.length - inds.length)).map (fun k =>
          { active := false, dataIndex := some (inds.length + k),
            testid := some (inds.length + k) }) := by
      simp [backfillIndicators, hlen]
    rw [hback]
    have hpad : List.map (fun (d : Indicator) => d.active)
        ((List.range (m.cards.length - inds.length)).map (fun k =>
          ({ active := false, dataIndex := some (inds.length + k),
             testid := some (inds.length + k) } : Indicator))) =
        List.replicate (m.cards.length - inds.length) false := by
      rw [List.map_map]
      show (List.range (m.cards.length - inds.length)).map (fun _ => false) =
        List.replicate (m.cards.length - inds.length) false
      rw [List.map_const', List.length_range]
    simp only [indActiveFlags] at hi1 hi2 ⊢
    refine ⟨hc1, hc2, ?_, ?_⟩
    · rw [List.map_append, hpad, List.head?_append, hi1]
      simp
    · rw [List.map_append, hpad, List.count_append, hi2, List.count_replicate]
      simp
  · have hback : backfillIndicators m.cards (some inds) = inds := by
      simp [backfillIndicators, hlen]
    rw [hback]
    exact ⟨hc1, hc2, hi1, hi2⟩

/-- Witness for C3 (amended) on the shipped two-slide markup. -/
theorem C3_init_preserves_active_witness :
    (activeFlags (construct markupTwo).cards).head? = some true ∧
    (activeFlags (construct markupTwo).cards).count true = 1 ∧
    (indActiveFlags (construct markupTwo).indicators).head? = some true ∧
    (indActiveFlags (construct markupTwo).indicators).count true = 1 :=
  C3_init_preserves_active markupTwo [activeInd, plainInd] rfl
    (by decide) (by decide) (by decide) (by decide)

/-- C6 counterexample: a markup with one card and no
`.carousel-indicators` container.  The backfill is guarded by the
container's existence, so after initialization there are 0 indicators
for 1 slide — refuting "for every markup with M < N pre-existing
indicator controls there are exactly N indicators after
initialization". -/
theorem C6_counterexample :
    1 ≤ (construct markupNoContainer).cards.length ∧
    (construct markupNoContainer).indicators.length = 0 := by
  decide

/-- C6 (amended): for every markup whose indicator container is present
with M < N pre-existing indicator buttons, initialization leaves exactly
N indicators: the pre-existing ones unchanged at positions below M, and
synthesized ones appended in ascending order at positions M..N-1, each
carrying `data-index i` and `data-testid indicator-i`. -/
theorem C6_backfill (m : Markup) (inds : List Indicator)
    (hI : m.indicatorContainer = some inds) (hM : inds.length < m.cards.length) :
    (construct m).indicators.length = m.cards.length ∧
    (∀ i, i < inds.length → (construct m).indicators.get? i = inds.get? i) ∧
    (∀ i, inds.length ≤ i → i < m.cards.length →
      (construct m).indicators.get? i =
        some { active := false, dataIndex := some i, testid := some i }) := by
  rw [construct_indicators, hI]
  have hback : backfillIndicators m.cards (some inds) =
      inds ++ (List.range (m.cards.length - inds.length)).map (fun k =>
        ({ active := false, dataIndex := some (inds.length + k),
           testid := some (inds.length + k) } : Indicator)) := by
    simp [backfillIndicators, hM]
  rw [hback]
  refine ⟨?_, ?_, ?_⟩
  · simp only [List.length_append, List.length_map, List.length_range]
    omega
  · intro i hi
    simp only [List.get?_eq_getElem?]
    rw [List.getElem?_append_left hi]
  · intro i h1 h2
    simp only [List.get?_eq_getElem?]
    rw [List.getElem?_append_right h1]
    have hlt : i - inds.length < (List.range (m.cards.length - inds.length)).length := by
      rw [List.length_range]; omega
    rw [List.getElem?_eq_getElem (by simpa using hlt)]
    have hidx : inds.length + (i - inds.length) = i := by omega
    simp [hidx]

/-- Witness for C6 (amended): two cards, one pre-existing indicator. -/
theorem C6_backfill_witness :
    (construct markupShortIndicators).indicators.length = 2 ∧
    (construct markupShortIndicators).indicators.get? 0 = some activeInd ∧
    (construct markupShortIndicators).indicators.get? 1 =
      some { active := false, dataIndex := some 1, testid := some 1 } :=
  ⟨(C6_backfill markupShortIndicators [activeInd] rfl (by decide)).1,
   (C6_backfill markupShortIndicators [activeInd] rfl (by decide)).2.1 0 (by decide),
   (C6_backfill markupShortIndicators [activeInd] rfl (by decide)).2.2 1
     (by decide) (by decide)⟩

/-- C8: a pointer-enter on the carousel container while the current
slide's panel is not expanded runs `tempPauseAutoAdvance`, which clears
both intervals (none stays live, no new one is created) and leaves the
`isPaused` flag exactly as it was; `tempPauseAutoAdvance` never touches
`isPaused` in any state. -/
theorem C8_hover_keeps_isPaused (m : Markup) (s : Carousel) (c : Card)
    (h : Reachable m s) (hc : s.cards.get? s.currentIndex = some c)
    (hexp : (c.hasPanel && c.expanded) = false) :
    (hoverEnter s).isPaused = s.isPaused ∧
    (hoverEnter s).liveAuto = [] ∧
    (hoverEnter s).liveProg = [] ∧
    (hoverEnter s).nextId = s.nextId ∧
    (tempPauseAutoAdvance s).isPaused = s.isPaused := by
  obtain ⟨hA, hP, _⟩ := reachable_timerInv h
  have htemp := tempPauseAutoAdvance_eq s hA hP
  have hh : hoverEnter s = tempPauseAutoAdvance s := by
    unfold hoverEnter
    rw [hc]
    simp [hexp]
  rw [hh, htemp]
  exact ⟨rfl, rfl, rfl, rfl, rfl⟩

/-- Witness for C8 at the freshly initialized two-slide carousel. -/
theorem C8_hover_keeps_isPaused_witness :
    (hoverEnter (construct markupTwo)).isPaused = (construct markupTwo).isPaused ∧
    (hoverEnter (construct markupTwo)).liveAuto = [] ∧
    (hoverEnter (construct markupTwo)).liveProg = [] ∧
    (hoverEnter (construct markupTwo)).nextId = (construct markupTwo).nextId ∧
    (tempPauseAutoAdvance (construct markupTwo)).isPaused =
      (construct markupTwo).isPaused :=
  C8_hover_keeps_isPaused markupTwo (construct markupTwo) activeCard
    Reachable.init (by decide) (by decide)

/-! ### Support for the navigation claim (C5) -/

theorem resumeAutoAdvance_cards (s : Carousel) :
    (resumeAutoAdvance s).cards = s.cards := by
  by_cases hp : s.isPaused <;>
    simp [resumeAutoAdvance, hp, startAutoAdvance, pauseAutoAdvance, startProgress,
      resetProgress]

theorem resumeAutoAdvance_currentIndex (s : Carousel) :
    (resumeAutoAdvance s).currentIndex = s.currentIndex := by
  by_cases hp : s.isPaused <;>
    simp [resumeAutoAdvance, hp, startAutoAdvance, pauseAutoAdvance, startProgress,
      resetProgress]

theorem goToSlide_currentIndex (i : Nat) (s : Carousel)
    (hg : s.currentIndex < s.cards.length) :
    (goToSlide i s).currentIndex = i := by
  unfold goToSlide
  simp only [hg, if_true]
  rw [resumeAutoAdvance_currentIndex]
  rfl

theorem goToSlide_cards_length (i : Nat) (s : Carousel) :
    (goToSlide i s).cards.length = s.cards.length := by
  unfold goToSlide
  by_cases hg : s.currentIndex < s.cards.length
  · simp only [hg, if_true]
    rw [resumeAutoAdvance_cards]
    simp [resetProgress, collapseAll]
  · simp [hg]

theorem goToNext_currentIndex (s : Carousel) (hg : s.currentIndex < s.cards.length) :
    (goToNext s).currentIndex = (s.currentIndex + 1) % s.cards.length :=
  goToSlide_currentIndex _ s hg

theorem goToNext_cards_length (s : Carousel) :
    (goToNext s).cards.length = s.cards.length :=
  goToSlide_cards_length _ s

/-- The JS expression `(currentIndex - 1 + N) % N` (nonnegative dividend,
where the JS remainder agrees with `Int.emod`) in wrap-around form. -/
theorem prevIndex_eq (ci N : Nat) (h : ci < N) :
    ((((ci : Int) - 1 + N) % (N : Int)).toNat) = (ci + N - 1) % N := by
  have h1 : ((ci : Int) - 1 + N) = ((ci + N - 1 : Nat) : Int) := by
    have hle : 1 ≤ ci + N := by omega
    rw [Nat.cast_sub hle]
    push_cast
    ring
  rw [h1, Int.ofNat_mod_ofNat, Int.toNat_ofNat]

theorem goToNext_iterate (s : Carousel) (hg : s.currentIndex < s.cards.length) :
    ∀ k, (goToNext^[k] s).currentIndex = (s.currentIndex + k) % s.cards.length ∧
         (goToNext^[k] s).cards.length = s.cards.length := by
  have hN : 0 < s.cards.length := Nat.lt_of_le_of_lt (Nat.zero_le _) hg
  intro k
  induction k with
  | zero =>
    constructor
    · simp [Nat.mod_eq_of_lt hg]
    · simp
  | succ n ih =>
    obtain ⟨ih1, ih2⟩ := ih
    have hlt : (goToNext^[n] s).currentIndex < (goToNext^[n] s).cards.length := by
      rw [ih1, ih2]
      exact Nat.mod_lt _ hN
    rw [Function.iterate_succ_apply']
    constructor
    · rw [goToNext_currentIndex _ hlt, ih1, ih2, Nat.mod_add_mod, Nat.add_assoc]
    · rw [goToNext_cards_length, ih2]

theorem visited_map_rotate (N : Nat) :
    (List.range N).map (fun k => (k + 1) % N) = (List.range N).rotate 1 := by
  apply List.ext_getElem
  · simp
  · intro n h1 h2
    simp [List.getElem_rotate, List.length_range]

theorem visited_perm (N : Nat) :
    ((List.range N).map (fun k => (k + 1) % N)).Perm (List.range N) := by
  rw [visited_map_rotate N]
  exact List.rotate_perm _ 1

/-- C5: `goToNext` advances `currentIndex` to `(currentIndex + 1) mod N`
and `goToPrevious` computes `(currentIndex - 1 + N) mod N` (stated over
the JS integer expression and in its wrap-around `Nat` form); from
index 0, `goToPrevious` lands on `N - 1`, `goToNext` iterated `N` times
returns to 0, and the `N` indices visited along the way are a
permutation of `0..N-1` — every ordinal is visited exactly once. -/
theorem C5_navigation (s : Carousel) (hg : s.currentIndex < s.cards.length) :
    (goToNext s).currentIndex = (s.currentIndex + 1) % s.cards.length ∧
    (goToPrevious s).currentIndex =
      ((((s.currentIndex : Int) - 1 + s.cards.length) % (s.cards.length : Int)).toNat) ∧
    (goToPrevious s).currentIndex = (s.currentIndex + s.cards.length - 1) % s.cards.length ∧
    (s.currentIndex = 0 → (goToPrevious s).currentIndex = s.cards.length - 1) ∧
    (s.currentIndex = 0 → (goToNext^[s.cards.length] s).currentIndex = 0) ∧
    (s.currentIndex = 0 →
      ((List.range s.cards.length).map
        (fun k => (goToNext^[k + 1] s).currentIndex)).Perm
        (List.range s.cards.length)) := by
  have hprevI : (goToPrevious s).currentIndex =
      ((((s.currentIndex : Int) - 1 + s.cards.length) % (s.cards.length : Int)).toNat) :=
    goToSlide_currentIndex _ s hg
  have hprevN : (goToPrevious s).currentIndex =
      (s.currentIndex + s.cards.length - 1) % s.cards.length := by
    rw [hprevI, prevIndex_eq _ _ hg]
  refine ⟨goToNext_currentIndex s hg, hprevI, hprevN, ?_, ?_, ?_⟩
  · intro h0
    rw [hprevN, h0, Nat.zero_add]
    exact Nat.mod_eq_of_lt (by omega)
  · intro h0
    rw [(goToNext_iterate s hg s.cards.length).1, h0, Nat.zero_add, Nat.mod_self]
  · intro h0
    have hmap : ∀ k ∈ List.range s.cards.length,
        (goToNext^[k + 1] s).currentIndex = (k + 1) % s.cards.length := by
      intro k _
      rw [(goToNext_iterate s hg (k + 1)).1, h0, Nat.zero_add]
    rw [List.map_congr_left hmap]
    exact visited_perm _

/-- Witness for C5 on the three-slide carousel. -/
theorem C5_navigation_witness :
    (goToNext (construct markupThree)).currentIndex = 1 ∧
    (goToPrevious (construct markupThree)).currentIndex = 2 ∧
    (goToNext^[3] (construct markupThree)).currentIndex = 0 ∧
    ((List.range 3).map
      (fun k => (goToNext^[k + 1] (construct markupThree)).currentIndex)).Perm
      (List.range 3) := by
  have h := C5_navigation (construct markupThree) (by decide)
  exact ⟨h.1, h.2.2.2.1 (by decide), h.2.2.2.2.1 (by decide), h.2.2.2.2.2 (by decide)⟩

/-! ### Support for the progress claim (C7) -/

theorem progressIncrement_eq : progressIncrement = 10 / 9 := by
  norm_num [progressIncrement, autoAdvanceDelay]

theorem progressAfter_succ (n : Nat) :
    progressAfter (n + 1) = progressTickVal (progressAfter n) := by
  unfold progressAfter
  rw [Function.iterate_succ_apply']

theorem progressAfter_eq : ∀ k, k ≤ 90 → progressAfter k = (k : ℚ) * (10 / 9) := by
  intro k
  induction k with
  | zero =>
    intro _
    simp [progressAfter]
  | succ n ih =>
    intro hk
    rw [progressAfter_succ, ih (by omega)]
    simp only [progressTickVal, progressIncrement_eq]
    by_cases hcl : (100 : ℚ) ≤ (n : ℚ) * (10 / 9) + 10 / 9
    · rw [if_pos hcl]
      have hn89 : (n : ℚ) = 89 := by
        have hle : (n : ℚ) ≤ 89 := by exact_mod_cast (by omega : n ≤ 89)
        linarith
      push_cast
      rw [hn89]
      norm_num
    · rw [if_neg hcl]
      push_cast
      ring

theorem progressAfter_ge90 : ∀ k, 90 ≤ k → progressAfter k = 100 := by
  intro k hk
  induction k, hk using Nat.le_induction with
  | base =>
    rw [progressAfter_eq 90 (by omega)]
    norm_num
  | succ n hn ih =>
    rw [progressAfter_succ, ih]
    simp only [progressTickVal, progressIncrement_eq]
    rw [if_pos (by norm_num)]

theorem progressAfter_le_100 (k : Nat) : progressAfter k ≤ 100 := by
  by_cases hk : k ≤ 90
  · rw [progressAfter_eq k hk]
    have hle : (k : ℚ) ≤ 90 := by exact_mod_cast hk
    linarith
  · rw [progressAfter_ge90 k (by omega)]

theorem resumeReset_progressWidth (t : Carousel) (hf : t.hasProgressFill = true) :
    (resumeAutoAdvance (resetProgress t)).progressWidth = 0 := by
  by_cases hp : t.isPaused <;>
    simp [resumeAutoAdvance, hp, startAutoAdvance, pauseAutoAdvance, startProgress,
      resetProgress, hf]

/-- C7: the per-tick increment is `100 / (9000 / 100)`; the accumulator
after `k < 90` ticks is strictly below 100, reaches exactly 100 at
tick 90, never exceeds 100 at any tick count `j`, and every `goToSlide`
resets the progress fill width to 0 (numbers modelled as exact
rationals). -/
theorem C7_progress (k j : Nat) (s : Carousel) (i : Nat)
    (hk : k < 90) (hg : s.currentIndex < s.cards.length)
    (hf : s.hasProgressFill = true) :
    progressIncrement = 100 / (9000 / 100) ∧
    progressAfter k < 100 ∧
    progressAfter 90 = 100 ∧
    progressAfter j ≤ 100 ∧
    (goToSlide i s).progressWidth = 0 := by
  refine ⟨rfl, ?_, progressAfter_ge90 90 (by omega), progressAfter_le_100 j, ?_⟩
  · rw [progressAfter_eq k (by omega)]
    have hle : (k : ℚ) ≤ 89 := by exact_mod_cast (by omega : k ≤ 89)
    linarith
  · unfold goToSlide
    simp only [hg, if_true]
    refine resumeReset_progressWidth _ ?_
    exact hf

/-- Witness for C7 with concrete tick counts on the two-slide page. -/
theorem C7_progress_witness :
    progressIncrement = 100 / (9000 / 100) ∧
    progressAfter 0 < 100 ∧
    progressAfter 90 = 100 ∧
    progressAfter 95 ≤ 100 ∧
    (goToSlide 1 (construct markupTwo)).progressWidth = 0 :=
  C7_progress 0 95 (construct markupTwo) 1 (by decide) (by decide) (by decide)

end Slands
